import Mathlib

/-!
# Fatal-error hook registry and PWM calibration

A shallow embedding of `sys/fatal_error/fatal_error.c`, `include/sys/fatal_error.h`
and `src/main.c`.

* The fatal dispatcher `k_sys_fatal_error_handler` is embedded as the list of
  effects it performs, in program order.  A handler call `(each->handler)()` is
  one effect carrying the handler; `inline_handlers` replaces every call by the
  effects of the handler's body.
* `pwm_calibrate_max_period` is a `while` loop that need not terminate, so it is
  embedded with a fuel counter bounding the number of `pwm_set_dt` attempts;
  `none` means the fuel ran out.  The driver is a state machine, so that its
  answers may change between calls.  `uint32_t` values are natural numbers and
  the only operation that can overflow, `4U * min_period`, is reduced modulo
  `2 ^ 32`.
-/

namespace FatalErrorPolicy

/-! ## Data model -/

/-- Devicetree PWM specification (`struct pwm_dt_spec`): device, channel, period, flags. -/
structure pwm_dt_spec where
  dev_name : String
  channel : Nat
  period : Nat
  flags : Nat
deriving DecidableEq, Repr

/-- Saved execution context at the fault point (`z_arch_esf_t`); never read by the dispatcher. -/
structure z_arch_esf_t where
  regs : List Nat
deriving DecidableEq, Repr

/-- Effects performed during a fatal dispatch; `H` is the type of handlers. -/
inductive Effect (H : Type) where
  /-- The call `(each->handler)()`: no argument, no return value. -/
  | call (handler : H)
  /-- The synchronous log flush `LOG_PANIC()`. -/
  | LOG_PANIC
  /-- An error-level log message. -/
  | LOG_ERR (msg : String)
  /-- An info-level log message. -/
  | LOG_INF (msg : String)
  /-- The restart primitive `sys_arch_reboot(type)`. -/
  | sys_arch_reboot (type : Int)
  /-- Entering the endless loop `for (;;) {}`. -/
  | idle_loop
  /-- The driver call `pwm_set_dt(spec, period, pulse)`. -/
  | pwm_set_dt (spec : pwm_dt_spec) (period pulse : Nat)
deriving DecidableEq, Repr

/-- One registry entry, `struct sys_fatal_error { void (*handler)(); }`. -/
structure sys_fatal_error (H : Type) where
  handler : H
deriving DecidableEq, Repr

/-! ## Fatal dispatcher (`sys/fatal_error/fatal_error.c`) -/

/-- The loop `STRUCT_SECTION_FOREACH(type, each) { body }` of Zephyr: `each` walks the
iterable section from its start to its end, one entry at a time, in link order. -/
def STRUCT_SECTION_FOREACH {α ε : Type} : List α → (α → List ε) → List ε
  | [], _ => []
  | each :: rest, body => body each ++ STRUCT_SECTION_FOREACH rest body

/-- The effects of `k_sys_fatal_error_handler(reason, esf)`, in program order.
`registry` is the content of the iterable section `sys_fatal_error`. -/
def k_sys_fatal_error_handler {H : Type} (CONFIG_RESET_ON_FATAL_ERROR : Bool)
    (registry : List (sys_fatal_error H)) (_reason : Nat) (_esf : Option z_arch_esf_t) :
    List (Effect H) :=
  STRUCT_SECTION_FOREACH registry (fun each => [Effect.call each.handler])
    ++ [Effect.LOG_PANIC]
    ++ (if CONFIG_RESET_ON_FATAL_ERROR then
          [Effect.LOG_ERR "Resetting system", Effect.sys_arch_reboot 0]
        else
          [Effect.LOG_ERR "Halting system", Effect.idle_loop])

/-- The handlers called in a trace, in order of the calls. -/
def handler_calls {H : Type} : List (Effect H) → List H
  | [] => []
  | Effect.call h :: rest => h :: handler_calls rest
  | _ :: rest => handler_calls rest

/-- An effect is a handler call. -/
def Effect.is_call {H : Type} : Effect H → Bool
  | Effect.call _ => true
  | _ => false

/-- An effect is the log flush. -/
def Effect.is_flush {H : Type} : Effect H → Bool
  | Effect.LOG_PANIC => true
  | _ => false

/-- An effect is the restart primitive. -/
def Effect.is_reboot {H : Type} : Effect H → Bool
  | Effect.sys_arch_reboot _ => true
  | _ => false

/-- An effect is the idle loop. -/
def Effect.is_idle {H : Type} : Effect H → Bool
  | Effect.idle_loop => true
  | _ => false

/-- An effect is a terminal action: the restart or the idle loop. -/
def Effect.is_terminal {H : Type} (e : Effect H) : Bool :=
  e.is_reboot || e.is_idle

/-- An effect is the diagnostic message announcing the reset or the halt. -/
def Effect.is_terminal_msg {H : Type} : Effect H → Bool
  | Effect.LOG_ERR msg => msg == "Resetting system" || msg == "Halting system"
  | _ => false

/-- Replace every handler call of a trace by the call followed by the effects
of the handler's body. -/
def inline_handlers {H : Type} (exec : H → List (Effect H)) : List (Effect H) → List (Effect H)
  | [] => []
  | Effect.call h :: rest => Effect.call h :: (exec h ++ inline_handlers exec rest)
  | e :: rest => e :: inline_handlers exec rest

/-! ## Application (`src/main.c`) -/

/-- The handlers defined by the application. -/
inductive Handler where
  | pwm_led0_off_fatal_error
deriving DecidableEq, Repr

/-- The body of `pwm_led0_off_fatal_error()`: switch the PWM off, then log. -/
def pwm_led0_off_fatal_error (pwm_led0 : pwm_dt_spec) : List (Effect Handler) :=
  [Effect.pwm_set_dt pwm_led0 0 0, Effect.LOG_INF ("Switched off " ++ pwm_led0.dev_name)]

/-- The entry `SYS_FATAL_ERROR_DEFINE(pwm_led0_off) = {.handler = pwm_led0_off_fatal_error}`. -/
def sys_fatal_error_pwm_led0_off : sys_fatal_error Handler :=
  { handler := Handler.pwm_led0_off_fatal_error }

/-- The iterable section `sys_fatal_error` of the application build: its one entry. -/
def application_registry : List (sys_fatal_error Handler) :=
  [sys_fatal_error_pwm_led0_off]

/-- The body run by each handler of the application. -/
def application_exec (pwm_led0 : pwm_dt_spec) : Handler → List (Effect Handler)
  | Handler.pwm_led0_off_fatal_error => pwm_led0_off_fatal_error pwm_led0

/-- The effects of a fatal dispatch in the application, handler bodies included. -/
def application_fatal_dispatch (CONFIG_RESET_ON_FATAL_ERROR : Bool) (pwm_led0 : pwm_dt_spec)
    (reason : Nat) (esf : Option z_arch_esf_t) : List (Effect Handler) :=
  inline_handlers (application_exec pwm_led0)
    (k_sys_fatal_error_handler CONFIG_RESET_ON_FATAL_ERROR application_registry reason esf)

/-- A PWM driver: `pwm_set_dt(spec, period, pulse)` returns a code, `0` for success,
and may change the driver's state. -/
structure pwm_driver (σ : Type) where
  pwm_set_dt : σ → pwm_dt_spec → Nat → Nat → Int × σ

/-- The function `pwm_calibrate_max_period(spec, min_period, max_period)`, run on the
driver state `s`.  `fuel` bounds the number of evaluations of the loop condition;
`none` means that the loop was still running when the fuel ran out.  The result is
the returned period and the driver state left behind. -/
def pwm_calibrate_max_period {σ : Type} (drv : pwm_driver σ) (spec : pwm_dt_spec)
    (min_period : Nat) : (fuel : Nat) → (s : σ) → (max_period : Nat) → Option (Nat × σ)
  | 0, _, _ => none
  | fuel + 1, s, max_period =>
    let r := drv.pwm_set_dt s spec max_period (max_period >>> 1)
    if r.1 ≠ 0 then
      let max_period := max_period / 2
      if max_period < (4 * min_period) % 2 ^ 32 then
        some (0, r.2)
      else
        pwm_calibrate_max_period drv spec min_period fuel r.2 max_period
    else
      some (max_period, r.2)

/-- A driver without state whose answer is given by the function `f`. -/
def stateless_driver (f : pwm_dt_spec → Nat → Nat → Int) : pwm_driver Unit :=
  { pwm_set_dt := fun _ spec period pulse => (f spec period pulse, ()) }

/-- Some occurrence of an effect satisfying `p` comes strictly before some occurrence
of an effect satisfying `q`. -/
def occurs_before {H : Type} (p q : Effect H → Bool) : List (Effect H) → Bool
  | [] => false
  | e :: rest => (p e && rest.any q) || occurs_before p q rest

/-- An effect is the driver call that switches the PWM signal of `spec` off. -/
def Effect.is_pwm_off {H : Type} (spec : pwm_dt_spec) : Effect H → Bool
  | Effect.pwm_set_dt s period pulse => s == spec && period == 0 && pulse == 0
  | _ => false

/-! ## Lemmas on traces -/

theorem foreach_call_eq_map {H : Type} (registry : List (sys_fatal_error H)) :
    STRUCT_SECTION_FOREACH registry (fun each => [Effect.call each.handler])
      = registry.map (fun each => Effect.call each.handler) := by
  induction registry with
  | nil => rfl
  | cons each rest ih => simp [STRUCT_SECTION_FOREACH, ih]

theorem handler_calls_append {H : Type} (xs ys : List (Effect H)) :
    handler_calls (xs ++ ys) = handler_calls xs ++ handler_calls ys := by
  induction xs with
  | nil => rfl
  | cons e rest ih => cases e <;> simp [handler_calls, ih]

theorem handler_calls_map_call {H : Type} (registry : List (sys_fatal_error H)) :
    handler_calls (registry.map (fun each => Effect.call each.handler))
      = registry.map (fun each => each.handler) := by
  induction registry with
  | nil => rfl
  | cons each rest ih => simp [handler_calls, ih]

theorem countP_map_call {H : Type} (p : Effect H → Bool) (registry : List (sys_fatal_error H))
    (hp : ∀ h, p (Effect.call h) = false) :
    List.countP p (registry.map (fun each => Effect.call each.handler)) = 0 := by
  induction registry with
  | nil => rfl
  | cons each rest ih => simp [List.countP_cons, hp, ih]

theorem countP_is_call_map_call {H : Type} (registry : List (sys_fatal_error H)) :
    List.countP Effect.is_call (registry.map (fun each => Effect.call each.handler))
      = registry.length := by
  induction registry with
  | nil => rfl
  | cons each rest ih => simp [List.countP_cons, Effect.is_call, ih]

theorem k_sys_fatal_error_handler_eq {H : Type} (cfg : Bool)
    (registry : List (sys_fatal_error H)) (reason : Nat) (esf : Option z_arch_esf_t) :
    k_sys_fatal_error_handler cfg registry reason esf
      = registry.map (fun each => Effect.call each.handler)
        ++ Effect.LOG_PANIC
          :: (if cfg then [Effect.LOG_ERR "Resetting system", Effect.sys_arch_reboot 0]
              else [Effect.LOG_ERR "Halting system", Effect.idle_loop]) := by
  simp [k_sys_fatal_error_handler, foreach_call_eq_map]

/-! ## The dispatcher -/

/-- C1: for every registry, reason code and context, one run of
`k_sys_fatal_error_handler` calls the handlers of the registry, each entry once, without
argument, in registry order: the sequence of its handler calls is the list of the
registry's handlers, and the number of handler calls is the number of entries. -/
theorem k_sys_fatal_error_handler_calls_each_once_in_order {H : Type} (cfg : Bool)
    (registry : List (sys_fatal_error H)) (reason : Nat) (esf : Option z_arch_esf_t) :
    handler_calls (k_sys_fatal_error_handler cfg registry reason esf)
        = registry.map (fun each => each.handler)
      ∧ List.countP Effect.is_call (k_sys_fatal_error_handler cfg registry reason esf)
        = registry.length := by
  rw [k_sys_fatal_error_handler_eq]
  constructor
  · rw [handler_calls_append, handler_calls_map_call]
    cases cfg <;> simp [handler_calls]
  · rw [List.countP_append, countP_is_call_map_call]
    cases cfg <;> simp [List.countP_cons, Effect.is_call]

/-- C2: with `CONFIG_RESET_ON_FATAL_ERROR` enabled the dispatch ends in the call
`sys_arch_reboot(0)` and has no idle loop; with it disabled the dispatch ends in the idle
loop and has no call of `sys_arch_reboot`; under either setting exactly one terminal
action occurs. -/
theorem k_sys_fatal_error_handler_reset_xor_halt {H : Type}
    (registry : List (sys_fatal_error H)) (reason : Nat) (esf : Option z_arch_esf_t) :
    ((k_sys_fatal_error_handler true registry reason esf).getLast?
          = some (Effect.sys_arch_reboot 0)
        ∧ List.countP Effect.is_idle (k_sys_fatal_error_handler true registry reason esf) = 0
        ∧ List.countP Effect.is_reboot (k_sys_fatal_error_handler true registry reason esf) = 1)
      ∧ ((k_sys_fatal_error_handler false registry reason esf).getLast?
          = some Effect.idle_loop
        ∧ List.countP Effect.is_reboot (k_sys_fatal_error_handler false registry reason esf) = 0
        ∧ List.countP Effect.is_idle (k_sys_fatal_error_handler false registry reason esf) = 1)
      ∧ ∀ cfg : Bool,
          List.countP Effect.is_terminal (k_sys_fatal_error_handler cfg registry reason esf)
            = 1 := by
  have hi := countP_map_call Effect.is_idle registry (fun _ => rfl)
  have hr := countP_map_call Effect.is_reboot registry (fun _ => rfl)
  have ht := countP_map_call Effect.is_terminal registry (fun _ => rfl)
  refine ⟨⟨?_, ?_, ?_⟩, ⟨?_, ?_, ?_⟩, ?_⟩
  · simp [k_sys_fatal_error_handler_eq, List.getLast?_append]
  · simp [k_sys_fatal_error_handler_eq, List.countP_append, hi, List.countP_cons, Effect.is_idle]
  · simp [k_sys_fatal_error_handler_eq, List.countP_append, hr, List.countP_cons,
      Effect.is_reboot]
  · simp [k_sys_fatal_error_handler_eq, List.getLast?_append]
  · simp [k_sys_fatal_error_handler_eq, List.countP_append, hr, List.countP_cons,
      Effect.is_reboot]
  · simp [k_sys_fatal_error_handler_eq, List.countP_append, hi, List.countP_cons, Effect.is_idle]
  · intro cfg
    cases cfg <;>
      simp [k_sys_fatal_error_handler_eq, List.countP_append, ht, List.countP_cons,
        Effect.is_terminal, Effect.is_reboot, Effect.is_idle]

/-- C3: under either configuration the trace of `k_sys_fatal_error_handler` is the handler
calls of the registry, then `LOG_PANIC`, then a tail that ends in the terminal action: the
tail has no handler call and no further flush, the part before the flush has no flush and
no terminal action, and the tail has exactly one terminal action, its last effect. -/
theorem k_sys_fatal_error_handler_trace_shape {H : Type} (cfg : Bool)
    (registry : List (sys_fatal_error H)) (reason : Nat) (esf : Option z_arch_esf_t) :
    ∃ tail : List (Effect H),
      k_sys_fatal_error_handler cfg registry reason esf
          = registry.map (fun each => Effect.call each.handler)
            ++ [Effect.LOG_PANIC] ++ tail
        ∧ List.countP Effect.is_call tail = 0
        ∧ List.countP Effect.is_flush tail = 0
        ∧ List.countP Effect.is_flush
            (registry.map (fun each => Effect.call each.handler)) = 0
        ∧ List.countP Effect.is_terminal
            (registry.map (fun each => Effect.call each.handler)) = 0
        ∧ List.countP Effect.is_terminal tail = 1
        ∧ tail.getLast? = some (if cfg then Effect.sys_arch_reboot 0 else Effect.idle_loop)
        ∧ List.countP Effect.is_flush (k_sys_fatal_error_handler cfg registry reason esf)
            = 1 := by
  have hf := countP_map_call Effect.is_flush registry (fun _ => rfl)
  have ht := countP_map_call Effect.is_terminal registry (fun _ => rfl)
  refine ⟨if cfg then [Effect.LOG_ERR "Resetting system", Effect.sys_arch_reboot 0]
      else [Effect.LOG_ERR "Halting system", Effect.idle_loop], ?_, ?_, ?_, hf, ht, ?_, ?_, ?_⟩
  · simp [k_sys_fatal_error_handler_eq]
  · cases cfg <;> simp [List.countP_cons, Effect.is_call]
  · cases cfg <;> simp [List.countP_cons, Effect.is_flush]
  · cases cfg <;>
      simp [List.countP_cons, Effect.is_terminal, Effect.is_reboot, Effect.is_idle]
  · cases cfg <;> simp
  · rw [k_sys_fatal_error_handler_eq, List.countP_append, hf]
    cases cfg <;> simp [List.countP_cons, Effect.is_flush]

/-- C7: for the empty registry `k_sys_fatal_error_handler` makes no handler call, performs
the log flush and then the configured terminal action, under either setting of
`CONFIG_RESET_ON_FATAL_ERROR`. -/
theorem k_sys_fatal_error_handler_empty_registry {H : Type} (reason : Nat)
    (esf : Option z_arch_esf_t) :
    k_sys_fatal_error_handler true ([] : List (sys_fatal_error H)) reason esf
        = [Effect.LOG_PANIC, Effect.LOG_ERR "Resetting system", Effect.sys_arch_reboot 0]
      ∧ k_sys_fatal_error_handler false ([] : List (sys_fatal_error H)) reason esf
        = [Effect.LOG_PANIC, Effect.LOG_ERR "Halting system", Effect.idle_loop]
      ∧ ∀ cfg : Bool,
          handler_calls
            (k_sys_fatal_error_handler cfg ([] : List (sys_fatal_error H)) reason esf) = [] := by
  refine ⟨rfl, rfl, ?_⟩
  intro cfg
  cases cfg <;> rfl

/-! ## The application's fatal dispatch -/

theorem application_fatal_dispatch_eq (cfg : Bool) (pwm_led0 : pwm_dt_spec) (reason : Nat)
    (esf : Option z_arch_esf_t) :
    application_fatal_dispatch cfg pwm_led0 reason esf
      = [Effect.call Handler.pwm_led0_off_fatal_error,
         Effect.pwm_set_dt pwm_led0 0 0,
         Effect.LOG_INF ("Switched off " ++ pwm_led0.dev_name),
         Effect.LOG_PANIC,
         Effect.LOG_ERR (if cfg then "Resetting system" else "Halting system"),
         if cfg then Effect.sys_arch_reboot 0 else Effect.idle_loop] := by
  cases cfg <;> rfl

/-- C4: in the application's build every fatal dispatch contains the driver call
`pwm_set_dt(pwm_led0, 0, 0)`, made by the registered handler, and the only terminal action
of the dispatch (reboot or idle loop, as configured) is its last effect, after that call. -/
theorem application_pwm_off_before_terminal (cfg : Bool) (pwm_led0 : pwm_dt_spec)
    (reason : Nat) (esf : Option z_arch_esf_t) :
    ∃ (before between : List (Effect Handler)) (terminal : Effect Handler),
      application_fatal_dispatch cfg pwm_led0 reason esf
          = before ++ [Effect.pwm_set_dt pwm_led0 0 0] ++ between ++ [terminal]
        ∧ terminal = (if cfg then Effect.sys_arch_reboot 0 else Effect.idle_loop)
        ∧ terminal.is_terminal = true
        ∧ List.countP Effect.is_terminal before = 0
        ∧ List.countP Effect.is_terminal between = 0
        ∧ handler_calls before = [Handler.pwm_led0_off_fatal_error] := by
  refine ⟨[Effect.call Handler.pwm_led0_off_fatal_error],
    [Effect.LOG_INF ("Switched off " ++ pwm_led0.dev_name), Effect.LOG_PANIC,
      Effect.LOG_ERR (if cfg then "Resetting system" else "Halting system")],
    if cfg then Effect.sys_arch_reboot 0 else Effect.idle_loop, ?_, rfl, ?_, ?_, ?_, rfl⟩
  · rw [application_fatal_dispatch_eq]; rfl
  · cases cfg <;> rfl
  · rfl
  · cases cfg <;> rfl

/-- C8, as stated, fails: in the dispatch with the reset option, reason 1 and the device
`pwm_led0`, no message announcing the reset or the halt comes before the PWM is switched
off; the PWM is switched off before the message. -/
theorem application_message_not_before_pwm_off :
    occurs_before Effect.is_terminal_msg (Effect.is_pwm_off ⟨"pwm_led0", 0, 0, 0⟩)
        (application_fatal_dispatch true ⟨"pwm_led0", 0, 0, 0⟩ 1 none) = false
      ∧ occurs_before (Effect.is_pwm_off ⟨"pwm_led0", 0, 0, 0⟩) Effect.is_terminal_msg
        (application_fatal_dispatch true ⟨"pwm_led0", 0, 0, 0⟩ 1 none) = true := by
  decide

/-- C8, amended: in every fatal dispatch of the application the order of effects is the
handler call with its physical effect `pwm_set_dt(pwm_led0, 0, 0)` and its log line, then
the log flush, then the message "Resetting system" or "Halting system", then the terminal
action.  The PWM is switched off before the message, never after it. -/
theorem application_dispatch_order (cfg : Bool) (pwm_led0 : pwm_dt_spec) (reason : Nat)
    (esf : Option z_arch_esf_t) :
    application_fatal_dispatch cfg pwm_led0 reason esf
        = [Effect.call Handler.pwm_led0_off_fatal_error,
           Effect.pwm_set_dt pwm_led0 0 0,
           Effect.LOG_INF ("Switched off " ++ pwm_led0.dev_name),
           Effect.LOG_PANIC,
           Effect.LOG_ERR (if cfg then "Resetting system" else "Halting system"),
           if cfg then Effect.sys_arch_reboot 0 else Effect.idle_loop]
      ∧ occurs_before (Effect.is_pwm_off pwm_led0) Effect.is_terminal_msg
          (application_fatal_dispatch cfg pwm_led0 reason esf) = true
      ∧ occurs_before Effect.is_terminal_msg Effect.is_terminal
          (application_fatal_dispatch cfg pwm_led0 reason esf) = true
      ∧ occurs_before Effect.is_terminal_msg (Effect.is_pwm_off pwm_led0)
          (application_fatal_dispatch cfg pwm_led0 reason esf) = false := by
  refine ⟨application_fatal_dispatch_eq cfg pwm_led0 reason esf, ?_, ?_, ?_⟩ <;>
    rw [application_fatal_dispatch_eq] <;>
    cases cfg <;>
    simp [occurs_before, Effect.is_pwm_off, Effect.is_terminal_msg, Effect.is_terminal,
      Effect.is_reboot, Effect.is_idle]

/-! ## Calibration: lemmas on the loop -/

theorem pwm_calibrate_max_period_succ {σ : Type} (drv : pwm_driver σ) (spec : pwm_dt_spec)
    (min_period fuel : Nat) (s : σ) (max_period : Nat) :
    pwm_calibrate_max_period drv spec min_period (fuel + 1) s max_period
      = if (drv.pwm_set_dt s spec max_period (max_period >>> 1)).1 ≠ 0 then
          if max_period / 2 < (4 * min_period) % 2 ^ 32 then
            some (0, (drv.pwm_set_dt s spec max_period (max_period >>> 1)).2)
          else
            pwm_calibrate_max_period drv spec min_period fuel
              (drv.pwm_set_dt s spec max_period (max_period >>> 1)).2 (max_period / 2)
        else
          some (max_period, (drv.pwm_set_dt s spec max_period (max_period >>> 1)).2) := by
  rfl

/-- More fuel does not change a result already obtained. -/
theorem pwm_calibrate_max_period_fuel_mono {σ : Type} (drv : pwm_driver σ)
    (spec : pwm_dt_spec) (min_period : Nat) :
    ∀ (fuel extra : Nat) (s : σ) (max_period : Nat) (res : Nat × σ),
      pwm_calibrate_max_period drv spec min_period fuel s max_period = some res →
      pwm_calibrate_max_period drv spec min_period (fuel + extra) s max_period = some res := by
  intro fuel
  induction fuel with
  | zero => intro extra s max_period res h; simp [pwm_calibrate_max_period] at h
  | succ n ih =>
    intro extra s max_period res h
    rw [show n + 1 + extra = (n + extra) + 1 by omega, pwm_calibrate_max_period_succ]
    rw [pwm_calibrate_max_period_succ] at h
    split_ifs at h ⊢ with h1 h2
    · exact h
    · exact ih extra _ _ res h
    · exact h

/-- With a nonzero floor the loop returns within `n + 1` attempts when `max_period < 2 ^ n`. -/
theorem pwm_calibrate_max_period_returns {σ : Type} (drv : pwm_driver σ)
    (spec : pwm_dt_spec) (min_period : Nat) (hfloor : (4 * min_period) % 2 ^ 32 ≠ 0) :
    ∀ (n : Nat) (s : σ) (max_period : Nat), max_period < 2 ^ n →
      ∃ res, pwm_calibrate_max_period drv spec min_period (n + 1) s max_period = some res := by
  intro n
  induction n with
  | zero =>
    intro s max_period h
    have h0 : max_period = 0 := by simpa using h
    subst h0
    rw [pwm_calibrate_max_period_succ]
    split_ifs with h1 h2
    · exact ⟨_, rfl⟩
    · exact absurd (Nat.pos_of_ne_zero hfloor) (by simpa using h2)
    · exact ⟨_, rfl⟩
  | succ n ih =>
    intro s max_period h
    rw [pwm_calibrate_max_period_succ]
    split_ifs with h1 h2
    · exact ⟨_, rfl⟩
    · apply ih
      have : max_period < 2 * 2 ^ n := by rw [pow_succ] at h; omega
      omega
    · exact ⟨_, rfl⟩

/-- A driver that rejects every attempt never makes the loop return a nonzero period. -/
theorem pwm_calibrate_max_period_all_rejected {σ : Type} (drv : pwm_driver σ)
    (spec : pwm_dt_spec) (min_period : Nat)
    (hrej : ∀ t p q, (drv.pwm_set_dt t spec p q).1 ≠ 0) :
    ∀ (fuel : Nat) (s : σ) (max_period : Nat) (res : Nat × σ),
      pwm_calibrate_max_period drv spec min_period fuel s max_period = some res →
      res.1 = 0 := by
  intro fuel
  induction fuel with
  | zero => intro s max_period res h; simp [pwm_calibrate_max_period] at h
  | succ n ih =>
    intro s max_period res h
    rw [pwm_calibrate_max_period_succ] at h
    split_ifs at h with h1 h2
    · cases h; rfl
    · exact ih _ _ res h
    · exact absurd h1 (by simpa using hrej s max_period (max_period >>> 1))

/-- With a zero floor a driver that rejects every attempt keeps the loop running. -/
theorem pwm_calibrate_max_period_diverges {σ : Type} (drv : pwm_driver σ)
    (spec : pwm_dt_spec) (min_period : Nat) (hfloor : (4 * min_period) % 2 ^ 32 = 0)
    (hrej : ∀ t p q, (drv.pwm_set_dt t spec p q).1 ≠ 0) :
    ∀ (fuel : Nat) (s : σ) (max_period : Nat),
      pwm_calibrate_max_period drv spec min_period fuel s max_period = none := by
  intro fuel
  induction fuel with
  | zero => intro s max_period; rfl
  | succ n ih =>
    intro s max_period
    rw [pwm_calibrate_max_period_succ, if_pos (hrej s max_period (max_period >>> 1)), hfloor]
    simpa using ih _ _

/-- A returned period is the initial one, zero, or at least the floor. -/
theorem pwm_calibrate_max_period_floor {σ : Type} (drv : pwm_driver σ)
    (spec : pwm_dt_spec) (min_period : Nat) :
    ∀ (fuel : Nat) (s : σ) (max_period : Nat) (res : Nat × σ),
      pwm_calibrate_max_period drv spec min_period fuel s max_period = some res →
      res.1 = max_period ∨ res.1 = 0 ∨ (4 * min_period) % 2 ^ 32 ≤ res.1 := by
  intro fuel
  induction fuel with
  | zero => intro s max_period res h; simp [pwm_calibrate_max_period] at h
  | succ n ih =>
    intro s max_period res h
    rw [pwm_calibrate_max_period_succ] at h
    split_ifs at h with h1 h2
    · cases h; exact Or.inr (Or.inl rfl)
    · rcases ih _ _ res h with h3 | h3 | h3
      · exact Or.inr (Or.inr (by omega))
      · exact Or.inr (Or.inl h3)
      · exact Or.inr (Or.inr h3)
    · cases h; exact Or.inl rfl

/-- The search of a stateless driver: a nonzero result is the first accepted trial. -/
theorem pwm_calibrate_max_period_first_accepted (f : pwm_dt_spec → Nat → Nat → Int)
    (spec : pwm_dt_spec) (min_period : Nat) :
    ∀ (fuel : Nat) (max_period r : Nat),
      pwm_calibrate_max_period (stateless_driver f) spec min_period fuel () max_period
        = some (r, ()) →
      r ≠ 0 →
      ∃ k : Nat, r = max_period / 2 ^ k ∧ f spec r (r >>> 1) = 0
        ∧ ∀ j, j < k → f spec (max_period / 2 ^ j) ((max_period / 2 ^ j) >>> 1) ≠ 0 := by
  intro fuel
  induction fuel with
  | zero => intro max_period r h; simp [pwm_calibrate_max_period] at h
  | succ n ih =>
    intro max_period r h hr
    rw [pwm_calibrate_max_period_succ] at h
    simp only [stateless_driver] at h
    split_ifs at h with h1 h2
    · cases h; exact absurd rfl hr
    · obtain ⟨k, hk, hacc, hrej⟩ := ih _ r h hr
      refine ⟨k + 1, ?_, hacc, ?_⟩
      · rw [hk, Nat.div_div_eq_div_mul, pow_succ, Nat.mul_comm]
      · intro j hj
        cases j with
        | zero => simpa using h1
        | succ i =>
          have := hrej i (by omega)
          rwa [Nat.div_div_eq_div_mul, Nat.mul_comm, ← pow_succ] at this
    · cases h
      exact ⟨0, by simp, by simpa using h1, by intro j hj; omega⟩

/-- The search only looks at whether a return code is zero. -/
theorem pwm_calibrate_max_period_codes (f g : pwm_dt_spec → Nat → Nat → Int)
    (spec : pwm_dt_spec) (min_period : Nat)
    (hfg : ∀ p q, f spec p q = 0 ↔ g spec p q = 0) :
    ∀ (fuel : Nat) (max_period : Nat),
      pwm_calibrate_max_period (stateless_driver g) spec min_period fuel () max_period
        = pwm_calibrate_max_period (stateless_driver f) spec min_period fuel () max_period := by
  intro fuel
  induction fuel with
  | zero => intro max_period; rfl
  | succ n ih =>
    intro max_period
    rw [pwm_calibrate_max_period_succ, pwm_calibrate_max_period_succ, ih]
    have h := hfg max_period (max_period >>> 1)
    simp only [stateless_driver, ne_eq, h]

/-! ## Calibration: the contract -/

/-- C5: for every `P` with `8 * P` below `2 ^ 32`, with `min_period = P`,
`max_period = 8 * P` and a driver whose `pwm_set_dt` returns `0` exactly for the periods
`≥ 2 * P`, `pwm_calibrate_max_period` returns (on its first attempt, so with any positive
fuel) a period that is one of `8 * P`, `4 * P`, `2 * P` and is not below `4 * P`. -/
theorem pwm_calibrate_max_period_scenario {σ : Type} (drv : pwm_driver σ)
    (spec : pwm_dt_spec) (P : Nat) (s : σ) (_hP : 8 * P < 2 ^ 32)
    (hdrv : ∀ t p q, (drv.pwm_set_dt t spec p q).1 = 0 ↔ 2 * P ≤ p) (fuel : Nat) :
    ∃ (r : Nat) (s1 : σ),
      pwm_calibrate_max_period drv spec P (fuel + 1) s (8 * P) = some (r, s1)
        ∧ (r = 8 * P ∨ r = 4 * P ∨ r = 2 * P) ∧ 4 * P ≤ r := by
  have hacc : (drv.pwm_set_dt s spec (8 * P) ((8 * P) >>> 1)).1 = 0 :=
    (hdrv s (8 * P) ((8 * P) >>> 1)).2 (by omega)
  refine ⟨8 * P, (drv.pwm_set_dt s spec (8 * P) ((8 * P) >>> 1)).2, ?_, Or.inl rfl, by omega⟩
  rw [pwm_calibrate_max_period_succ, if_neg (by simpa using hacc)]

/-- Witness of C5 with `P = 1000` and the stateless driver accepting the periods `≥ 2000`. -/
theorem pwm_calibrate_max_period_scenario_witness :
    8 * 1000 < 2 ^ 32 ∧
    ∃ (r : Nat) (s1 : Unit),
      pwm_calibrate_max_period
          (stateless_driver fun _ p _ => if 2 * 1000 ≤ p then 0 else -22)
          ⟨"pwm_led0", 0, 0, 0⟩ 1000 (0 + 1) () (8 * 1000) = some (r, s1)
        ∧ (r = 8 * 1000 ∨ r = 4 * 1000 ∨ r = 2 * 1000) ∧ 4 * 1000 ≤ r :=
  ⟨by decide,
    pwm_calibrate_max_period_scenario
      (stateless_driver fun _ p _ => if 2 * 1000 ≤ p then 0 else -22)
      ⟨"pwm_led0", 0, 0, 0⟩ 1000 () (by decide)
      (by intro t p q; by_cases h : 2 * 1000 ≤ p <;> simp [stateless_driver, h]) 0⟩

/-- C6: for every stateless driver, `min_period` and `max_period`: a nonzero result `r` of
`pwm_calibrate_max_period` is `max_period / 2 ^ k` for some `k`, the driver returns `0` for
`(r, r >> 1)`, and the driver returns a nonzero code for every earlier trial
`max_period / 2 ^ j`, `j < k`; and a driver that returns zero on the same attempts, whatever
its nonzero codes, gives the same outcome. -/
theorem pwm_calibrate_max_period_halving_search (f : pwm_dt_spec → Nat → Nat → Int)
    (spec : pwm_dt_spec) (min_period max_period fuel : Nat) :
    (∀ r : Nat,
        pwm_calibrate_max_period (stateless_driver f) spec min_period fuel () max_period
          = some (r, ()) →
        r ≠ 0 →
        ∃ k : Nat, r = max_period / 2 ^ k ∧ f spec r (r >>> 1) = 0
          ∧ ∀ j, j < k → f spec (max_period / 2 ^ j) ((max_period / 2 ^ j) >>> 1) ≠ 0)
      ∧ ∀ g : pwm_dt_spec → Nat → Nat → Int,
          (∀ p q, f spec p q = 0 ↔ g spec p q = 0) →
          pwm_calibrate_max_period (stateless_driver g) spec min_period fuel () max_period
            = pwm_calibrate_max_period (stateless_driver f) spec min_period fuel ()
                max_period :=
  ⟨fun r h hr => pwm_calibrate_max_period_first_accepted f spec min_period fuel max_period r h hr,
    fun g hfg => pwm_calibrate_max_period_codes f g spec min_period hfg fuel max_period⟩

/-- Witness of C6: a driver accepting the periods `≤ 16` with code `-22` otherwise, started
at `64` with `min_period = 2`, yields `16`; so does the driver with code `5` otherwise. -/
theorem pwm_calibrate_max_period_halving_search_witness :
    pwm_calibrate_max_period (stateless_driver fun _ p _ => if p ≤ 16 then 0 else -22)
        ⟨"pwm_led0", 0, 0, 0⟩ 2 5 () 64 = some (16, ())
      ∧ (∃ k : Nat, 16 = 64 / 2 ^ k
          ∧ (fun (_ : pwm_dt_spec) (p _ : Nat) => if p ≤ 16 then (0 : Int) else -22)
              ⟨"pwm_led0", 0, 0, 0⟩ 16 (16 >>> 1) = 0
          ∧ ∀ j, j < k →
              (fun (_ : pwm_dt_spec) (p _ : Nat) => if p ≤ 16 then (0 : Int) else -22)
                ⟨"pwm_led0", 0, 0, 0⟩ (64 / 2 ^ j) ((64 / 2 ^ j) >>> 1) ≠ 0)
      ∧ pwm_calibrate_max_period (stateless_driver fun _ p _ => if p ≤ 16 then 0 else 5)
          ⟨"pwm_led0", 0, 0, 0⟩ 2 5 () 64
        = pwm_calibrate_max_period (stateless_driver fun _ p _ => if p ≤ 16 then 0 else -22)
          ⟨"pwm_led0", 0, 0, 0⟩ 2 5 () 64 :=
  ⟨by decide,
    (pwm_calibrate_max_period_halving_search (fun _ p _ => if p ≤ 16 then 0 else -22)
      ⟨"pwm_led0", 0, 0, 0⟩ 2 64 5).1 16 (by decide) (by decide),
    (pwm_calibrate_max_period_halving_search (fun _ p _ => if p ≤ 16 then 0 else -22)
      ⟨"pwm_led0", 0, 0, 0⟩ 2 64 5).2 (fun _ p _ => if p ≤ 16 then 0 else 5)
      (by intro p q; by_cases h : p ≤ 16 <;> simp [h])⟩

/-- C9: for every `max_period` below `2 ^ 32`, every driver and driver state: when
`(4 * min_period) mod 2 ^ 32` is not zero, `pwm_calibrate_max_period` returns within 33
attempts, and it returns `0` when the driver rejects every attempt; when
`(4 * min_period) mod 2 ^ 32` is zero and the driver rejects every attempt, the loop never
returns, whatever the fuel. -/
theorem pwm_calibrate_max_period_terminates {σ : Type} (drv : pwm_driver σ)
    (spec : pwm_dt_spec) (min_period max_period : Nat) (s : σ)
    (hmax : max_period < 2 ^ 32) :
    ((4 * min_period) % 2 ^ 32 ≠ 0 →
        ∀ fuel, 33 ≤ fuel →
          ∃ (r : Nat) (s1 : σ),
            pwm_calibrate_max_period drv spec min_period fuel s max_period = some (r, s1)
              ∧ ((∀ t p q, (drv.pwm_set_dt t spec p q).1 ≠ 0) → r = 0))
      ∧ ((4 * min_period) % 2 ^ 32 = 0 →
          (∀ t p q, (drv.pwm_set_dt t spec p q).1 ≠ 0) →
          ∀ fuel, pwm_calibrate_max_period drv spec min_period fuel s max_period = none) := by
  constructor
  · intro hfloor fuel hfuel
    obtain ⟨res, hres⟩ :=
      pwm_calibrate_max_period_returns drv spec min_period hfloor 32 s max_period hmax
    have h := pwm_calibrate_max_period_fuel_mono drv spec min_period 33 (fuel - 33) s
      max_period res hres
    rw [show 33 + (fuel - 33) = fuel by omega] at h
    exact ⟨res.1, res.2, h, fun hrej =>
      pwm_calibrate_max_period_all_rejected drv spec min_period hrej fuel s max_period res h⟩
  · intro hfloor hrej fuel
    exact pwm_calibrate_max_period_diverges drv spec min_period hfloor hrej fuel s max_period

/-- Witness of C9: against the driver that always returns `-22`, from `max_period = 64`,
`min_period = 1` gives the result `0` with fuel 33, and `min_period = 2 ^ 30` gives no
result with fuel 1000. -/
theorem pwm_calibrate_max_period_terminates_witness :
    (64 < 2 ^ 32 ∧ (4 * 1) % 2 ^ 32 ≠ 0 ∧
      ∃ (r : Nat) (s1 : Unit),
        pwm_calibrate_max_period (stateless_driver fun _ _ _ => -22)
            ⟨"pwm_led0", 0, 0, 0⟩ 1 33 () 64 = some (r, s1)
          ∧ ((∀ (t : Unit) p q,
                ((stateless_driver fun _ _ _ => -22).pwm_set_dt t
                  ⟨"pwm_led0", 0, 0, 0⟩ p q).1 ≠ 0) → r = 0))
      ∧ ((4 * 2 ^ 30) % 2 ^ 32 = 0 ∧
        pwm_calibrate_max_period (stateless_driver fun _ _ _ => -22)
          ⟨"pwm_led0", 0, 0, 0⟩ (2 ^ 30) 1000 () 64 = none) :=
  ⟨⟨by decide, by decide,
      (pwm_calibrate_max_period_terminates (stateless_driver fun _ _ _ => -22)
        ⟨"pwm_led0", 0, 0, 0⟩ 1 64 () (by decide)).1 (by decide) 33 (le_refl 33)⟩,
    ⟨by decide,
      (pwm_calibrate_max_period_terminates (stateless_driver fun _ _ _ => -22)
        ⟨"pwm_led0", 0, 0, 0⟩ (2 ^ 30) 64 () (by decide)).2 (by decide)
        (by intro t p q; simp [stateless_driver]) 1000⟩⟩

/-- C10: for every driver, `min_period` and `max_period`, a result `r` of
`pwm_calibrate_max_period` is the initial `max_period`, or `0`, or at least
`(4 * min_period) mod 2 ^ 32`; and when the driver accepts the initial `max_period` on the
first attempt, that value is returned unchanged, whatever the floor. -/
theorem pwm_calibrate_max_period_floor_skips_initial {σ : Type} (drv : pwm_driver σ)
    (spec : pwm_dt_spec) (min_period max_period : Nat) (s : σ) :
    (∀ (fuel r : Nat) (s1 : σ),
        pwm_calibrate_max_period drv spec min_period fuel s max_period = some (r, s1) →
        r = max_period ∨ r = 0 ∨ (4 * min_period) % 2 ^ 32 ≤ r)
      ∧ ((drv.pwm_set_dt s spec max_period (max_period >>> 1)).1 = 0 →
          ∀ fuel,
            pwm_calibrate_max_period drv spec min_period (fuel + 1) s max_period
              = some (max_period,
                  (drv.pwm_set_dt s spec max_period (max_period >>> 1)).2)) := by
  constructor
  · intro fuel r s1 h
    exact pwm_calibrate_max_period_floor drv spec min_period fuel s max_period (r, s1) h
  · intro hacc fuel
    rw [pwm_calibrate_max_period_succ, if_neg (by simpa using hacc)]

/-- Witness of C10: with `min_period = 100` the floor is `400`; the driver accepting every
period returns the initial `max_period = 8` unchanged. -/
theorem pwm_calibrate_max_period_floor_skips_initial_witness :
    pwm_calibrate_max_period (stateless_driver fun _ _ _ => 0)
        ⟨"pwm_led0", 0, 0, 0⟩ 100 3 () 8 = some (8, ())
      ∧ (8 = 8 ∨ 8 = 0 ∨ (4 * 100) % 2 ^ 32 ≤ 8)
      ∧ 8 < (4 * 100) % 2 ^ 32
      ∧ pwm_calibrate_max_period (stateless_driver fun _ _ _ => 0)
          ⟨"pwm_led0", 0, 0, 0⟩ 100 (0 + 1) () 8 = some (8, ()) :=
  ⟨by decide,
    (pwm_calibrate_max_period_floor_skips_initial (stateless_driver fun _ _ _ => 0)
      ⟨"pwm_led0", 0, 0, 0⟩ 100 8 ()).1 3 8 () (by decide),
    by decide,
    (pwm_calibrate_max_period_floor_skips_initial (stateless_driver fun _ _ _ => 0)
      ⟨"pwm_led0", 0, 0, 0⟩ 100 8 ()).2 (by decide) 0⟩

end FatalErrorPolicy
